import Mathlib

/-!
# Session client of the guessing game

A shallow embedding of the two browser clients of the repository,

* `static/akinator_app/script.js` (namespace `Script`): the answer response carries the
  guess inline;
* `templates/akinator_app/app.js` (namespace `App`): the guess is fetched by a separate
  `getResult` call.

The server is external, so every `fetch` is modelled by the outcome it eventually
delivers (`Fetch`), given as an argument of the operation that issues it.  Each
operation is run to completion before the next one starts (the client is
single-threaded and its callbacks never overlap).  Module-level variables and the
properties of the page the code writes are the fields of a `World`; `trace` is a
ghost log of the requests sent, the rendering functions called and the errors
reported.
-/

namespace Akinator

/-! ## JavaScript values -/

/-- A JavaScript value that can reach the client: a parsed JSON value, or `undefined`
(the value of a property that is absent).  Numbers are integers here; the program
stores a number, shows it or sends it back as it is, and otherwise only tests it for
being zero.  An object lists its properties,
each name once. -/
inductive JVal where
  | undefined : JVal
  | null : JVal
  | bool (b : Bool) : JVal
  | num (n : Int) : JVal
  | str (s : String) : JVal
  | arr (items : List JVal) : JVal
  | obj (fields : List (String × JVal)) : JVal

namespace JVal

/-- The test `if (v)`: `undefined`, `null`, `false`, `0` and the empty string are falsy,
every array and every object is truthy. -/
def truthy : JVal → Bool
  | undefined => false
  | null => false
  | bool b => b
  | num n => n != 0
  | str s => s != ""
  | arr _ => true
  | obj _ => true

/-- Whether property access on the value throws a `TypeError`. -/
def nullish : JVal → Bool
  | undefined => true
  | null => true
  | _ => false

/-- The property `k` of a value that is neither `null` nor `undefined`: the field of an
object, `undefined` when the object has none of that name or the value is a
primitive or an array.  (The property names the client reads, `session_id`,
`question`, `text`, `next_question`, `guessed_character`, `message`, `name`,
`description`, `image_url`, are not built-in properties of any JSON value.) -/
def field (v : JVal) (k : String) : JVal :=
  match v with
  | obj fs => (fs.lookup k).getD undefined
  | _ => undefined

/-- The expression `v.k`: `none` stands for the `TypeError` thrown on `null` and
`undefined`. -/
def get (v : JVal) (k : String) : Option JVal :=
  if v.nullish then none else some (v.field k)

/-- The expression `a || b`. -/
def or (a b : JVal) : JVal :=
  if a.truthy then a else b

end JVal

/-! ## Transport and ghost trace -/

/-- What a `fetch(...).then(res => res.json())` chain delivers. -/
inductive Fetch where
  /-- The request fails: the promise of `fetch` rejects. -/
  | networkError : Fetch
  /-- The body is not JSON: the promise of `res.json()` rejects. -/
  | badBody : Fetch
  /-- The body parses to `data`. -/
  | json (data : JVal) : Fetch

/-- A request handed to `fetch`.  A POST body is the object given to `JSON.stringify`;
a GET carries the values interpolated into its query string. -/
inductive Request where
  | get (url : String) (query : List (String × JVal)) : Request
  | post (url : String) (body : JVal) : Request

/-- An entry of the ghost trace. -/
inductive Event where
  /-- The call `fetch(req)`. -/
  | fetch (req : Request) : Event
  /-- The call `showQuestion(q)`. -/
  | showQuestion (q : JVal) : Event
  /-- The call `showResult(character)` of `script.js`. -/
  | showResult (character : JVal) : Event
  /-- The `message` branch of the answer handler of `script.js`. -/
  | showMessage (message : JVal) : Event
  /-- The call `getResult()` of `app.js`. -/
  | getResult : Event
  /-- The call `console.error(label, err)` of a `.catch` handler. -/
  | consoleError (label : String) : Event
  /-- A promise chain without `.catch` ends rejected. -/
  | unhandledRejection : Event

/-- How a `.then` callback ends: it returns, or it throws at the point reached (what it
wrote before stays written). -/
inductive Completion (ω : Type) where
  | normal (w : ω) : Completion ω
  | thrown (w : ω) : Completion ω

/-- Whether an event is one of the outcomes an answer response can be dispatched to:
showing the next question, showing the guess (inline in `script.js`, through
`getResult` in `app.js`), or showing the message. -/
def Event.isOutcome : Event → Bool
  | .showQuestion _ => true
  | .showResult _ => true
  | .showMessage _ => true
  | .getResult => true
  | _ => false

/-- The number of outcomes acted upon in a stretch of the trace. -/
def outcomes (es : List Event) : Nat :=
  (es.filter Event.isOutcome).length

/-! ## `static/akinator_app/script.js` -/

namespace Script

/-- The properties of the page that `script.js` writes. -/
structure View where
  /-- Whether `startBtn.classList` holds `hidden`. -/
  startBtnHidden : Bool
  /-- Whether `questionContainer.classList` holds `hidden`. -/
  questionContainerHidden : Bool
  /-- The value last assigned to `questionText.textContent`. -/
  questionText : JVal
  /-- Whether every answer button has `disabled` set. -/
  answerBtnsDisabled : Bool
  /-- Whether `resultContainer.classList` holds `hidden`. -/
  resultContainerHidden : Bool
  /-- The value last assigned to `resultName.textContent`. -/
  resultName : JVal
  /-- The value last assigned to `resultDesc.textContent`. -/
  resultDesc : JVal

/-- The module variable `session_id`, the page, and the ghost trace. -/
structure World where
  session_id : JVal
  view : View
  trace : List Event

/-- The world once the script is loaded on a page showing `v`: `let session_id = null`. -/
def init (v : View) : World :=
  { session_id := JVal.null, view := v, trace := [] }

/-- Append an entry to the ghost trace. -/
def World.emit (w : World) (e : Event) : World :=
  { w with trace := w.trace ++ [e] }

/-- The function `showQuestion(q)`: `questionText.textContent = q.text`. -/
def showQuestion (w : World) (q : JVal) : Completion World :=
  let w := w.emit (.showQuestion q)
  match q.get "text" with
  | none => .thrown w
  | some t => .normal { w with view := { w.view with questionText := t } }

/-- The function `showResult(character)`. -/
def showResult (w : World) (character : JVal) : Completion World :=
  let w := w.emit (.showResult character)
  let w := { w with view := { w.view with questionContainerHidden := true } }
  let w := { w with view := { w.view with resultContainerHidden := false } }
  match character.get "name" with
  | none => .thrown w
  | some n =>
    let w := { w with view := { w.view with resultName := n } }
    match character.get "description" with
    | none => .thrown w
    | some d => .normal { w with view := { w.view with resultDesc := d } }

/-- The callback `data => ...` of `startGame`. -/
def startGameThen (w : World) (data : JVal) : Completion World :=
  match data.get "session_id" with
  | none => .thrown w
  | some sid =>
    let w := { w with session_id := sid }
    match data.get "question" with
    | none => .thrown w
    | some q =>
      match showQuestion w q with
      | .thrown w => .thrown w
      | .normal w =>
        let w := { w with view := { w.view with startBtnHidden := true } }
        .normal { w with view := { w.view with questionContainerHidden := false } }

/-- The request of `startGame`: `fetch("/api/start_game/")`. -/
def startRequest : Request :=
  .get "/api/start_game/" []

/-- The function `startGame()`, its chain has no `.catch`. -/
def startGame (w : World) (r : Fetch) : World :=
  let w := w.emit (.fetch startRequest)
  match r with
  | .networkError => w.emit .unhandledRejection
  | .badBody => w.emit .unhandledRejection
  | .json data =>
    match startGameThen w data with
    | .normal w => w
    | .thrown w => w.emit .unhandledRejection

/-- The callback `data => ...` of the click handler of an answer button. -/
def answerThen (w : World) (data : JVal) : Completion World :=
  match data.get "next_question" with
  | none => .thrown w
  | some nq =>
    if nq.truthy then showQuestion w nq
    else
      match data.get "guessed_character" with
      | none => .thrown w
      | some gc =>
        if gc.truthy then showResult w gc
        else
          match data.get "message" with
          | none => .thrown w
          | some m =>
            if m.truthy then
              let w := w.emit (.showMessage m)
              let w := { w with view := { w.view with questionText := m } }
              .normal { w with view := { w.view with answerBtnsDisabled := true } }
            else .normal w

/-- The click handler of an answer button whose `data-answer` attribute is `answer`
(`null` when the button has none); its chain has no `.catch`. -/
def answerClick (w : World) (answer : JVal) (r : Fetch) : World :=
  let w := w.emit (.fetch (Request.post "/api/answer/"
      (.obj [("session_id", w.session_id), ("answer", answer)])))
  match r with
  | .networkError => w.emit .unhandledRejection
  | .badBody => w.emit .unhandledRejection
  | .json data =>
    match answerThen w data with
    | .normal w => w
    | .thrown w => w.emit .unhandledRejection

/-- A call made on the page, with the outcome of the request it issues. -/
inductive Call where
  | startGame (r : Fetch) : Call
  | answer (a : JVal) (r : Fetch) : Call

/-- Run one call. -/
def step (w : World) : Call → World
  | .startGame r => startGame w r
  | .answer a r => answerClick w a r

/-- Run calls one after the other. -/
def run (w : World) (calls : List Call) : World :=
  calls.foldl step w

/-- Whether a call is `startGame`. -/
def Call.isStart : Call → Bool
  | .startGame _ => true
  | .answer _ _ => false

end Script

/-! ## `templates/akinator_app/app.js` -/

namespace App

/-- The markup `getResult` assigns to `result.innerHTML`, by the values interpolated
into its template: `name`, then `description || ''`, then the `img` fragment, which
is present exactly when `image_url` is truthy and then carries `image_url`. -/
structure Guess where
  name : JVal
  description : JVal
  image : Option JVal

/-- The properties of the page that `app.js` writes. -/
structure View where
  /-- The value last assigned to the `innerText` of `question`. -/
  question : JVal
  /-- The text last assigned to the `innerText` of `progress`. -/
  progress : String
  /-- The `style.display` of `startBtn`. -/
  startBtnDisplay : String
  /-- The `style.display` of `answers`. -/
  answersDisplay : String
  /-- The markup last assigned to the `innerHTML` of `result`, `none` while the code has
  assigned none. -/
  result : Option Guess

/-- The module variables `sessionId` and `questionCount`, the page, and the ghost
trace. -/
structure World where
  sessionId : JVal
  questionCount : Nat
  view : View
  trace : List Event

/-- The world once the script is loaded on a page showing `v`:
`let sessionId = null; let questionCount = 0`. -/
def init (v : View) : World :=
  { sessionId := JVal.null, questionCount := 0, view := v, trace := [] }

/-- Append an entry to the ghost trace. -/
def World.emit (w : World) (e : Event) : World :=
  { w with trace := w.trace ++ [e] }

/-- The largest count `questionCount++` can reach: a JavaScript number is an IEEE 754
double, and `2^53 + 1` rounds back to `2^53`. -/
def maxCount : Nat := 9007199254740992

/-- The value of `questionCount` after `questionCount++`.  The variable starts at `0`, is
set to `1` and is only ever incremented, so it stays within `0 .. 2^53`, where the
addition is exact below `2^53` and is absorbed by rounding at `2^53`. -/
def increment (n : Nat) : Nat :=
  if n < maxCount then n + 1 else n

/-- The function `showQuestion(question)`: `innerText = question.text`. -/
def showQuestion (w : World) (question : JVal) : Completion World :=
  let w := w.emit (.showQuestion question)
  match question.get "text" with
  | none => .thrown w
  | some t => .normal { w with view := { w.view with question := t } }

/-- The function `updateProgress()`: the label is the word `Question`, a blank and the
count in decimal. -/
def updateProgress (w : World) : World :=
  { w with view := { w.view with progress := "Question " ++ toString w.questionCount } }

/-- The callback `data => ...` of `startGame`. -/
def startGameThen (w : World) (data : JVal) : Completion World :=
  match data.get "session_id" with
  | none => .thrown w
  | some sid =>
    let w := { w with sessionId := sid }
    let w := { w with questionCount := 1 }
    match data.get "question" with
    | none => .thrown w
    | some q =>
      match showQuestion w q with
      | .thrown w => .thrown w
      | .normal w =>
        let w := { w with view := { w.view with startBtnDisplay := "none" } }
        let w := { w with view := { w.view with answersDisplay := "block" } }
        .normal (updateProgress w)

/-- The request of `startGame`. -/
def startRequest : Request :=
  .get "http://127.0.0.1:8000/api/start_game/" []

/-- The function `startGame()`. -/
def startGame (w : World) (r : Fetch) : World :=
  let w := w.emit (.fetch startRequest)
  match r with
  | .networkError => w.emit (.consoleError "Error starting game:")
  | .badBody => w.emit (.consoleError "Error starting game:")
  | .json data =>
    match startGameThen w data with
    | .normal w => w
    | .thrown w => w.emit (.consoleError "Error starting game:")

/-- The callback `data => ...` of `getResult`. -/
def getResultThen (w : World) (data : JVal) : Completion World :=
  let w := { w with view := { w.view with question := JVal.str "" } }
  let w := { w with view := { w.view with answersDisplay := "none" } }
  let w := { w with view := { w.view with progress := "" } }
  match data.get "guessed_character" with
  | none => .thrown w
  | some c =>
    match c.get "name", c.get "description", c.get "image_url" with
    | some n, some d, some u =>
      let g : Guess :=
        { name := n, description := d.or (JVal.str ""),
          image := if u.truthy then some u else none }
      .normal { w with view := { w.view with result := some g } }
    | _, _, _ => .thrown w

/-- The function `getResult()`. -/
def getResult (w : World) (r : Fetch) : World :=
  let w := w.emit .getResult
  let w := w.emit (.fetch (Request.get "http://127.0.0.1:8000/api/get_result/"
      [("session_id", w.sessionId)]))
  match r with
  | .networkError => w.emit (.consoleError "Error getting result:")
  | .badBody => w.emit (.consoleError "Error getting result:")
  | .json data =>
    match getResultThen w data with
    | .normal w => w
    | .thrown w => w.emit (.consoleError "Error getting result:")

/-- The callback `data => ...` of `submitAnswer`; `r2` is what the request of
`getResult` delivers when the callback issues it. -/
def submitAnswerThen (w : World) (data : JVal) (r2 : Fetch) : Completion World :=
  match data.get "next_question" with
  | none => .thrown w
  | some nq =>
    if nq.truthy then
      let w := { w with questionCount := increment w.questionCount }
      match showQuestion w nq with
      | .thrown w => .thrown w
      | .normal w => .normal (updateProgress w)
    else .normal (getResult w r2)

/-- The function `submitAnswer(answer)`; `r` is what its own request delivers and `r2`
what the request of `getResult` delivers, when that one is issued. -/
def submitAnswer (w : World) (answer : JVal) (r r2 : Fetch) : World :=
  let w := w.emit (.fetch (Request.post "http://127.0.0.1:8000/api/answer_question/"
      (.obj [("session_id", w.sessionId), ("answer", answer)])))
  match r with
  | .networkError => w.emit (.consoleError "Error submitting answer:")
  | .badBody => w.emit (.consoleError "Error submitting answer:")
  | .json data =>
    match submitAnswerThen w data r2 with
    | .normal w => w
    | .thrown w => w.emit (.consoleError "Error submitting answer:")

/-- A call made on the page, with the outcomes of the requests it issues. -/
inductive Call where
  | startGame (r : Fetch) : Call
  | submitAnswer (a : JVal) (r r2 : Fetch) : Call
  | getResult (r : Fetch) : Call

/-- Run one call. -/
def step (w : World) : Call → World
  | .startGame r => startGame w r
  | .submitAnswer a r r2 => submitAnswer w a r r2
  | .getResult r => getResult w r

/-- Run calls one after the other. -/
def run (w : World) (calls : List Call) : World :=
  calls.foldl step w

/-- Whether a call is `startGame`. -/
def Call.isStart : Call → Bool
  | .startGame _ => true
  | _ => false

end App

/-! ## Sample data -/

namespace Sample

/-- A page of `script.js` before the game: only the start button shows. -/
def scriptPage : Script.View :=
  { startBtnHidden := false, questionContainerHidden := true, questionText := JVal.str "",
    answerBtnsDisabled := false, resultContainerHidden := true, resultName := JVal.str "",
    resultDesc := JVal.str "" }

/-- A page of `app.js` before the game. -/
def appPage : App.View :=
  { question := JVal.str "", progress := "", startBtnDisplay := "", answersDisplay := "none",
    result := none }

/-- A question object. -/
def question (text : String) : JVal :=
  .obj [("text", .str text)]

/-- A start response: `session_id` is abc123 and the first question asks whether it is
alive. -/
def startData : JVal :=
  .obj [("session_id", .str "abc123"), ("question", question "Is it alive?")]

/-- An answer response carrying the next question. -/
def nextData : JVal :=
  .obj [("next_question", question "Does it fly?")]

/-- A character with a name and a description and no image. -/
def penguin : JVal :=
  .obj [("name", .str "Penguin"), ("description", .str "A flightless bird")]

/-- The same character with an image reference. -/
def penguinWithImage : JVal :=
  .obj [("name", .str "Penguin"), ("description", .str "A flightless bird"),
    ("image_url", .str "/media/penguin.png")]

/-- A response carrying a guess. -/
def guessData (character : JVal) : JVal :=
  .obj [("guessed_character", character)]

/-- A response carrying only a message. -/
def messageData : JVal :=
  .obj [("message", .str "No more questions")]

end Sample

/-! ## Facts about values -/

theorem JVal.nullish_of_truthy {v : JVal} (h : v.truthy = true) : v.nullish = false := by
  cases v <;> simp_all [JVal.truthy, JVal.nullish]

theorem JVal.nullish_of_field_truthy {v : JVal} {k : String}
    (h : (v.field k).truthy = true) : v.nullish = false := by
  cases v <;> simp_all [JVal.truthy, JVal.nullish, JVal.field]

theorem JVal.nullish_of_field_nullish {v : JVal} {k : String}
    (h : (v.field k).nullish = false) : v.nullish = false := by
  cases v <;> simp_all [JVal.nullish, JVal.field]

theorem JVal.get_eq {v : JVal} (h : v.nullish = false) (k : String) :
    v.get k = some (v.field k) := by
  simp [JVal.get, h]

theorem JVal.get_none {v : JVal} (h : v.nullish = true) (k : String) : v.get k = none := by
  simp [JVal.get, h]

theorem JVal.truthy_obj_eq (fs : List (String × JVal)) : (JVal.obj fs).truthy = true := rfl

theorem outcomes_append (xs ys : List Event) :
    outcomes (xs ++ ys) = outcomes xs + outcomes ys := by
  simp [outcomes, List.filter_append]

theorem progress_one : "Question " ++ toString 1 = "Question 1" := by decide

/-! ## What each call of `script.js` does -/

namespace Script

/-- A start response with a question object: the identifier is stored, the question
shown, the start button hidden and the question container revealed. -/
theorem startGame_shows_question (w : World) (data : JVal)
    (hq : (data.field "question").nullish = false) :
    startGame w (.json data) =
      { session_id := data.field "session_id"
        view := { w.view with
          questionText := (data.field "question").field "text"
          startBtnHidden := true
          questionContainerHidden := false }
        trace := w.trace ++ [.fetch startRequest, .showQuestion (data.field "question")] } := by
  have hd := JVal.nullish_of_field_nullish hq
  simp [startGame, startGameThen, showQuestion, World.emit, JVal.get_eq hd, JVal.get_eq hq]

theorem startGame_session_id (w : World) (data : JVal) (hd : data.nullish = false) :
    (startGame w (.json data)).session_id = data.field "session_id" := by
  simp only [startGame, startGameThen, showQuestion, World.emit, JVal.get_eq hd]
  cases hq : (data.field "question").nullish
  · simp [JVal.get_eq hq]
  · simp [JVal.get_none hq]

/-- The `next_question` branch. -/
theorem answerClick_question (w : World) (a data : JVal)
    (h : (data.field "next_question").truthy = true) :
    answerClick w a (.json data) =
      { w with
        view := { w.view with questionText := (data.field "next_question").field "text" }
        trace := w.trace ++
          [.fetch (Request.post "/api/answer/"
              (.obj [("session_id", w.session_id), ("answer", a)])), .showQuestion (data.field "next_question")] } := by
  have hd := JVal.nullish_of_field_truthy h
  have hq := JVal.nullish_of_truthy h
  simp [answerClick, answerThen, showQuestion, World.emit, JVal.get_eq hd, JVal.get_eq hq, h]

/-- The `guessed_character` branch. -/
theorem answerClick_result (w : World) (a data : JVal)
    (h1 : (data.field "next_question").truthy = false)
    (h2 : (data.field "guessed_character").truthy = true) :
    answerClick w a (.json data) =
      { w with
        view := { w.view with
          questionContainerHidden := true
          resultContainerHidden := false
          resultName := (data.field "guessed_character").field "name"
          resultDesc := (data.field "guessed_character").field "description" }
        trace := w.trace ++
          [.fetch (Request.post "/api/answer/"
              (.obj [("session_id", w.session_id), ("answer", a)])),
           .showResult (data.field "guessed_character")] } := by
  have hd := JVal.nullish_of_field_truthy h2
  have hc := JVal.nullish_of_truthy h2
  simp [answerClick, answerThen, showResult, World.emit, JVal.get_eq hd, JVal.get_eq hc, h1, h2]

/-- The `message` branch. -/
theorem answerClick_message (w : World) (a data : JVal)
    (h1 : (data.field "next_question").truthy = false)
    (h2 : (data.field "guessed_character").truthy = false)
    (h3 : (data.field "message").truthy = true) :
    answerClick w a (.json data) =
      { w with
        view := { w.view with
          questionText := data.field "message"
          answerBtnsDisabled := true }
        trace := w.trace ++
          [.fetch (Request.post "/api/answer/"
              (.obj [("session_id", w.session_id), ("answer", a)])), .showMessage (data.field "message")] } := by
  have hd := JVal.nullish_of_field_truthy h3
  simp [answerClick, answerThen, World.emit, JVal.get_eq hd, h1, h2, h3]

/-- No branch is taken when none of the three fields is truthy. -/
theorem answerClick_none (w : World) (a data : JVal)
    (h1 : (data.field "next_question").truthy = false)
    (h2 : (data.field "guessed_character").truthy = false)
    (h3 : (data.field "message").truthy = false) :
    answerClick w a (.json data) =
      { w with
        trace := w.trace ++ (.fetch (Request.post "/api/answer/"
            (.obj [("session_id", w.session_id), ("answer", a)])) ::
          if data.nullish then [.unhandledRejection] else []) } := by
  cases hd : data.nullish
  · simp [answerClick, answerThen, World.emit, JVal.get_eq hd, h1, h2, h3]
  · simp [answerClick, answerThen, World.emit, JVal.get_none hd]

/-- A failed request or an unreadable body leaves the variable and the page alone. -/
theorem answerClick_failed (w : World) (a : JVal) :
    answerClick w a .networkError =
        { w with trace := w.trace ++
            [.fetch (Request.post "/api/answer/"
                (.obj [("session_id", w.session_id), ("answer", a)])), .unhandledRejection] } ∧
      answerClick w a .badBody =
        { w with trace := w.trace ++
            [.fetch (Request.post "/api/answer/"
                (.obj [("session_id", w.session_id), ("answer", a)])), .unhandledRejection] } := by
  constructor <;> simp [answerClick, World.emit]


/-- Whatever the request delivers, the click handler keeps `session_id`, sends its
request first and acts on at most one outcome. -/
theorem answerClick_shape (w : World) (a : JVal) (r : Fetch) :
    ∃ v es, answerClick w a r =
        { session_id := w.session_id, view := v,
          trace := w.trace ++ .fetch (Request.post "/api/answer/"
              (.obj [("session_id", w.session_id), ("answer", a)])) :: es } ∧
      outcomes es ≤ 1 := by
  cases r with
  | networkError => exact ⟨w.view, [.unhandledRejection], (answerClick_failed w a).1, by decide⟩
  | badBody => exact ⟨w.view, [.unhandledRejection], (answerClick_failed w a).2, by decide⟩
  | json data =>
    cases h1 : (data.field "next_question").truthy
    · cases h2 : (data.field "guessed_character").truthy
      · cases h3 : (data.field "message").truthy
        · refine ⟨w.view, if data.nullish then [.unhandledRejection] else [], ?_, ?_⟩
          · rw [answerClick_none w a data h1 h2 h3]
          · cases data.nullish <;> decide
        · exact ⟨_, [.showMessage (data.field "message")],
            by rw [answerClick_message w a data h1 h2 h3], by simp [outcomes, Event.isOutcome]⟩
      · exact ⟨_, [.showResult (data.field "guessed_character")],
          by rw [answerClick_result w a data h1 h2], by simp [outcomes, Event.isOutcome]⟩
    · exact ⟨_, [.showQuestion (data.field "next_question")],
        by rw [answerClick_question w a data h1], by simp [outcomes, Event.isOutcome]⟩

theorem answerClick_session_id (w : World) (a : JVal) (r : Fetch) :
    (answerClick w a r).session_id = w.session_id := by
  obtain ⟨v, es, h, -⟩ := answerClick_shape w a r
  rw [h]

/-- Calls other than `startGame` keep `session_id`. -/
theorem run_session_id (calls : List Call) (hc : ∀ c ∈ calls, c.isStart = false) (w : World) :
    (run w calls).session_id = w.session_id := by
  induction calls generalizing w with
  | nil => rfl
  | cons c cs ih =>
    have hcs : ∀ d ∈ cs, d.isStart = false := fun d hd => hc d (List.mem_cons_of_mem c hd)
    have hstep : (step w c).session_id = w.session_id := by
      cases c with
      | startGame r => simpa [Call.isStart] using hc (.startGame r) (List.mem_cons_self _ _)
      | answer a r => exact answerClick_session_id w a r
    show (run (step w c) cs).session_id = w.session_id
    rw [ih hcs (step w c), hstep]

theorem run_calls_append (w : World) (xs ys : List Call) : run w (xs ++ ys) = run (run w xs) ys := by
  simp [run, List.foldl_append]

/-- The click handler never reveals the question container and never hides the result
container. -/
theorem answerClick_keeps_hidden (w : World) (a : JVal) (r : Fetch) :
    (w.view.questionContainerHidden = true →
        (answerClick w a r).view.questionContainerHidden = true) ∧
      (w.view.resultContainerHidden = false →
        (answerClick w a r).view.resultContainerHidden = false) := by
  cases r with
  | networkError => exact ⟨fun h => h, fun h => h⟩
  | badBody => exact ⟨fun h => h, fun h => h⟩
  | json data =>
    cases h1 : (data.field "next_question").truthy
    · cases h2 : (data.field "guessed_character").truthy
      · cases h3 : (data.field "message").truthy
        · rw [answerClick_none w a data h1 h2 h3]
          exact ⟨fun h => h, fun h => h⟩
        · rw [answerClick_message w a data h1 h2 h3]
          exact ⟨fun h => h, fun h => h⟩
      · rw [answerClick_result w a data h1 h2]
        exact ⟨fun _ => rfl, fun _ => rfl⟩
    · rw [answerClick_question w a data h1]
      exact ⟨fun h => h, fun h => h⟩

/-- Calls other than `startGame` keep the question container hidden and the result
container revealed. -/
theorem run_keeps_hidden (calls : List Call) (hc : ∀ c ∈ calls, c.isStart = false) (w : World)
    (hq : w.view.questionContainerHidden = true) (hr : w.view.resultContainerHidden = false) :
    (run w calls).view.questionContainerHidden = true ∧
      (run w calls).view.resultContainerHidden = false := by
  induction calls generalizing w with
  | nil => exact ⟨hq, hr⟩
  | cons c cs ih =>
    have hcs : ∀ d ∈ cs, d.isStart = false := fun d hd => hc d (List.mem_cons_of_mem c hd)
    have hstep : (step w c).view.questionContainerHidden = true ∧
        (step w c).view.resultContainerHidden = false := by
      cases c with
      | startGame r => simpa [Call.isStart] using hc (.startGame r) (List.mem_cons_self _ _)
      | answer a r =>
        exact ⟨(answerClick_keeps_hidden w a r).1 hq, (answerClick_keeps_hidden w a r).2 hr⟩
    exact ih hcs (step w c) hstep.1 hstep.2

end Script

/-! ## What each call of `app.js` does -/

namespace App

/-- A start response with a question object. -/
theorem startGame_ok (w : World) (data : JVal)
    (hq : (data.field "question").nullish = false) :
    startGame w (.json data) =
      { sessionId := data.field "session_id"
        questionCount := 1
        view := { w.view with
          question := (data.field "question").field "text"
          startBtnDisplay := "none"
          answersDisplay := "block"
          progress := "Question 1" }
        trace := w.trace ++ [.fetch startRequest, .showQuestion (data.field "question")] } := by
  have hd := JVal.nullish_of_field_nullish hq
  simp [startGame, startGameThen, showQuestion, updateProgress, World.emit, JVal.get_eq hd,
    JVal.get_eq hq, progress_one]

theorem startGame_sessionId (w : World) (data : JVal) (hd : data.nullish = false) :
    (startGame w (.json data)).sessionId = data.field "session_id" := by
  simp only [startGame, startGameThen, showQuestion, World.emit, JVal.get_eq hd]
  cases hq : (data.field "question").nullish
  · simp [JVal.get_eq hq, updateProgress]
  · simp [JVal.get_none hq]

/-- A failed request or an unreadable body is logged and nothing else changes. -/
theorem startGame_failed (w : World) :
    startGame w .networkError =
        { w with trace := w.trace ++
            [.fetch startRequest, .consoleError "Error starting game:"] } ∧
      startGame w .badBody =
        { w with trace := w.trace ++
            [.fetch startRequest, .consoleError "Error starting game:"] } := by
  constructor <;> simp [startGame, World.emit]

/-- A result response with a character: the question and the progress label are
cleared, the answers hidden and the guess written. -/
theorem getResult_ok (w : World) (data : JVal)
    (hc : (data.field "guessed_character").nullish = false) :
    getResult w (.json data) =
      { w with
        view := { w.view with
          question := JVal.str ""
          answersDisplay := "none"
          progress := ""
          result := some
            { name := (data.field "guessed_character").field "name"
              description :=
                ((data.field "guessed_character").field "description").or (JVal.str "")
              image :=
                if ((data.field "guessed_character").field "image_url").truthy then
                  some ((data.field "guessed_character").field "image_url")
                else none } }
        trace := w.trace ++ [.getResult, .fetch (Request.get "http://127.0.0.1:8000/api/get_result/"
            [("session_id", w.sessionId)])] } := by
  have hd := JVal.nullish_of_field_nullish hc
  simp [getResult, getResultThen, World.emit, JVal.get_eq hd, JVal.get_eq hc]

/-- A result response without a character: the page is cleared, no guess is written and
the error is logged. -/
theorem getResult_missing (w : World) (data : JVal)
    (hc : (data.field "guessed_character").nullish = true) :
    getResult w (.json data) =
      { w with
        view := { w.view with
          question := JVal.str ""
          answersDisplay := "none"
          progress := "" }
        trace := w.trace ++
          [.getResult, .fetch (Request.get "http://127.0.0.1:8000/api/get_result/"
              [("session_id", w.sessionId)]),
           .consoleError "Error getting result:"] } := by
  cases hd : data.nullish
  · simp [getResult, getResultThen, World.emit, JVal.get_eq hd, JVal.get_none hc]
  · simp [getResult, getResultThen, World.emit, JVal.get_none hd]

theorem getResult_failed (w : World) :
    getResult w .networkError =
        { w with trace := w.trace ++
            [.getResult, .fetch (Request.get "http://127.0.0.1:8000/api/get_result/"
                [("session_id", w.sessionId)]),
             .consoleError "Error getting result:"] } ∧
      getResult w .badBody =
        { w with trace := w.trace ++
            [.getResult, .fetch (Request.get "http://127.0.0.1:8000/api/get_result/"
                [("session_id", w.sessionId)]),
             .consoleError "Error getting result:"] } := by
  constructor <;> simp [getResult, World.emit]

/-- Whatever the request delivers, `getResult` keeps both variables, sends its request
and reports every failure through `console.error`. -/
theorem getResult_shape (w : World) (r : Fetch) :
    ∃ v es, getResult w r =
        { w with view := v,
                 trace := w.trace ++ .getResult :: .fetch (Request.get "http://127.0.0.1:8000/api/get_result/"
                     [("session_id", w.sessionId)]) :: es } ∧
      (es = [] ∨ es = [.consoleError "Error getting result:"]) := by
  cases r with
  | networkError => exact ⟨w.view, _, (getResult_failed w).1, Or.inr rfl⟩
  | badBody => exact ⟨w.view, _, (getResult_failed w).2, Or.inr rfl⟩
  | json data =>
    cases hc : (data.field "guessed_character").nullish
    · exact ⟨_, [], getResult_ok w data hc, Or.inl rfl⟩
    · exact ⟨_, _, getResult_missing w data hc, Or.inr rfl⟩


/-- The `next_question` branch of `submitAnswer`. -/
theorem submitAnswer_question (w : World) (a data : JVal) (r2 : Fetch)
    (h : (data.field "next_question").truthy = true) :
    submitAnswer w a (.json data) r2 =
      { w with
        questionCount := increment w.questionCount
        view := { w.view with
          question := (data.field "next_question").field "text"
          progress := "Question " ++ toString (increment w.questionCount) }
        trace := w.trace ++
          [.fetch (Request.post "http://127.0.0.1:8000/api/answer_question/"
              (.obj [("session_id", w.sessionId), ("answer", a)])), .showQuestion (data.field "next_question")] } := by
  have hd := JVal.nullish_of_field_truthy h
  have hq := JVal.nullish_of_truthy h
  simp [submitAnswer, submitAnswerThen, showQuestion, updateProgress, World.emit,
    JVal.get_eq hd, JVal.get_eq hq, h]

/-- The other branch of `submitAnswer`: every parsed body without a truthy
`next_question` leads to `getResult()`, whatever else it holds. -/
theorem submitAnswer_else (w : World) (a data : JVal) (r2 : Fetch)
    (hd : data.nullish = false) (h : (data.field "next_question").truthy = false) :
    submitAnswer w a (.json data) r2 =
      getResult (w.emit (.fetch (Request.post "http://127.0.0.1:8000/api/answer_question/"
          (.obj [("session_id", w.sessionId), ("answer", a)])))) r2 := by
  simp [submitAnswer, submitAnswerThen, World.emit, JVal.get_eq hd, h]

/-- A body that parses to `null`: reading `data.next_question` throws, the error is
logged. -/
theorem submitAnswer_null (w : World) (a data : JVal) (r2 : Fetch)
    (hd : data.nullish = true) :
    submitAnswer w a (.json data) r2 =
      { w with trace := w.trace ++
          [.fetch (Request.post "http://127.0.0.1:8000/api/answer_question/"
              (.obj [("session_id", w.sessionId), ("answer", a)])),
           .consoleError "Error submitting answer:"] } := by
  simp [submitAnswer, submitAnswerThen, World.emit, JVal.get_none hd]

theorem submitAnswer_failed (w : World) (a : JVal) (r2 : Fetch) :
    submitAnswer w a .networkError r2 =
        { w with trace := w.trace ++
            [.fetch (Request.post "http://127.0.0.1:8000/api/answer_question/"
                (.obj [("session_id", w.sessionId), ("answer", a)])),
             .consoleError "Error submitting answer:"] } ∧
      submitAnswer w a .badBody r2 =
        { w with trace := w.trace ++
            [.fetch (Request.post "http://127.0.0.1:8000/api/answer_question/"
                (.obj [("session_id", w.sessionId), ("answer", a)])),
             .consoleError "Error submitting answer:"] } := by
  constructor <;> simp [submitAnswer, World.emit]

/-- Whatever the requests deliver, `submitAnswer` keeps `sessionId`, sends its request
first and acts on at most one outcome. -/
theorem submitAnswer_shape (w : World) (a : JVal) (r r2 : Fetch) :
    ∃ n v es, submitAnswer w a r r2 =
        { sessionId := w.sessionId, questionCount := n, view := v,
          trace := w.trace ++ .fetch (Request.post "http://127.0.0.1:8000/api/answer_question/"
              (.obj [("session_id", w.sessionId), ("answer", a)])) :: es } ∧
      outcomes es ≤ 1 ∧ Event.unhandledRejection ∉ es := by
  cases r with
  | networkError =>
    exact ⟨_, _, [.consoleError "Error submitting answer:"], (submitAnswer_failed w a r2).1,
      by simp [outcomes, Event.isOutcome], by simp⟩
  | badBody =>
    exact ⟨_, _, [.consoleError "Error submitting answer:"], (submitAnswer_failed w a r2).2,
      by simp [outcomes, Event.isOutcome], by simp⟩
  | json data =>
    cases hd : data.nullish
    · cases h : (data.field "next_question").truthy
      · obtain ⟨v, es, hg, hes⟩ := getResult_shape (w.emit (.fetch (Request.post "http://127.0.0.1:8000/api/answer_question/"
          (.obj [("session_id", w.sessionId), ("answer", a)])))) r2
        refine ⟨w.questionCount, v, .getResult :: .fetch (Request.get "http://127.0.0.1:8000/api/get_result/"
            [("session_id", w.sessionId)]) :: es, ?_, ?_, ?_⟩
        · rw [submitAnswer_else w a data r2 hd h, hg]
          simp [World.emit]
        · rcases hes with rfl | rfl <;> simp [outcomes, Event.isOutcome]
        · rcases hes with rfl | rfl <;> simp
      · exact ⟨_, _, [.showQuestion (data.field "next_question")],
          submitAnswer_question w a data r2 h, by simp [outcomes, Event.isOutcome], by simp⟩
    · exact ⟨_, _, [.consoleError "Error submitting answer:"], submitAnswer_null w a data r2 hd,
        by simp [outcomes, Event.isOutcome], by simp⟩

theorem submitAnswer_sessionId (w : World) (a : JVal) (r r2 : Fetch) :
    (submitAnswer w a r r2).sessionId = w.sessionId := by
  obtain ⟨n, v, es, h, -⟩ := submitAnswer_shape w a r r2
  rw [h]

theorem getResult_sessionId (w : World) (r : Fetch) :
    (getResult w r).sessionId = w.sessionId := by
  obtain ⟨v, es, h, -⟩ := getResult_shape w r
  rw [h]

/-- Calls other than `startGame` keep `sessionId`. -/
theorem run_sessionId (calls : List Call) (hc : ∀ c ∈ calls, c.isStart = false) (w : World) :
    (run w calls).sessionId = w.sessionId := by
  induction calls generalizing w with
  | nil => rfl
  | cons c cs ih =>
    have hcs : ∀ d ∈ cs, d.isStart = false := fun d hd => hc d (List.mem_cons_of_mem c hd)
    have hstep : (step w c).sessionId = w.sessionId := by
      cases c with
      | startGame r => simpa [Call.isStart] using hc (.startGame r) (List.mem_cons_self _ _)
      | submitAnswer a r r2 => exact submitAnswer_sessionId w a r r2
      | getResult r => exact getResult_sessionId w r
    show (run (step w c) cs).sessionId = w.sessionId
    rw [ih hcs (step w c), hstep]

theorem run_append (w : World) (xs ys : List Call) : run w (xs ++ ys) = run (run w xs) ys := by
  simp [run, List.foldl_append]


/-- A start response without a question object: reading `question.text` (or, at the body
`null`, `data.session_id`) throws, and the error is logged. -/
theorem startGame_missing (w : World) (data : JVal)
    (hq : (data.field "question").nullish = true) :
    (startGame w (.json data)).trace =
      w.trace ++
        (.fetch startRequest ::
          (if data.nullish then [] else [.showQuestion (data.field "question")])) ++
        [.consoleError "Error starting game:"] := by
  cases hd : data.nullish
  · simp [startGame, startGameThen, showQuestion, World.emit, JVal.get_eq hd, JVal.get_none hq]
  · simp [startGame, startGameThen, World.emit, JVal.get_none hd]

/-- The count after `k` further answers that each bring a next question: it grows by one
an answer until it reaches `maxCount` and stays there. -/
theorem count_after_questions (a data : JVal) (r2 : Fetch)
    (h : (data.field "next_question").truthy = true) (k : Nat) (w : World)
    (hw : w.questionCount ≤ maxCount) :
    (run w (List.replicate k (.submitAnswer a (.json data) r2))).questionCount =
      if w.questionCount + k < maxCount then w.questionCount + k else maxCount := by
  induction k generalizing w with
  | zero =>
    show w.questionCount = _
    split_ifs with hlt
    · rfl
    · simp only [Nat.add_zero] at hlt
      omega
  | succ k ih =>
    show (run (submitAnswer w a (.json data) r2)
      (List.replicate k (.submitAnswer a (.json data) r2))).questionCount = _
    have hq : (submitAnswer w a (.json data) r2).questionCount = increment w.questionCount := by
      rw [submitAnswer_question w a data r2 h]
    have hle : (submitAnswer w a (.json data) r2).questionCount ≤ maxCount := by
      rw [hq]
      unfold increment
      split_ifs <;> omega
    rw [ih _ hle, hq]
    unfold increment
    split_ifs <;> omega

/-- Once the answers are hidden, `getResult` leaves them hidden. -/
theorem getResult_keeps_hidden (w : World) (r : Fetch)
    (h : w.view.answersDisplay = "none") : (getResult w r).view.answersDisplay = "none" := by
  cases r with
  | networkError => rw [(getResult_failed w).1]; exact h
  | badBody => rw [(getResult_failed w).2]; exact h
  | json data =>
    cases hc : (data.field "guessed_character").nullish
    · rw [getResult_ok w data hc]
    · rw [getResult_missing w data hc]

/-- Once the answers are hidden, `submitAnswer` leaves them hidden. -/
theorem submitAnswer_keeps_hidden (w : World) (a : JVal) (r r2 : Fetch)
    (h : w.view.answersDisplay = "none") :
    (submitAnswer w a r r2).view.answersDisplay = "none" := by
  cases r with
  | networkError => rw [(submitAnswer_failed w a r2).1]; exact h
  | badBody => rw [(submitAnswer_failed w a r2).2]; exact h
  | json data =>
    cases hd : data.nullish
    · cases hq : (data.field "next_question").truthy
      · rw [submitAnswer_else w a data r2 hd hq]
        exact getResult_keeps_hidden _ r2 h
      · rw [submitAnswer_question w a data r2 hq]
        exact h
    · rw [submitAnswer_null w a data r2 hd]
      exact h

/-- Calls other than `startGame` keep the answers hidden. -/
theorem run_keeps_hidden_answers (calls : List Call) (hc : ∀ c ∈ calls, c.isStart = false)
    (w : World) (h : w.view.answersDisplay = "none") :
    (run w calls).view.answersDisplay = "none" := by
  induction calls generalizing w with
  | nil => exact h
  | cons c cs ih =>
    have hcs : ∀ d ∈ cs, d.isStart = false := fun d hd => hc d (List.mem_cons_of_mem c hd)
    have hstep : (step w c).view.answersDisplay = "none" := by
      cases c with
      | startGame r => simpa [Call.isStart] using hc (.startGame r) (List.mem_cons_self _ _)
      | submitAnswer a r r2 => exact submitAnswer_keeps_hidden w a r r2 h
      | getResult r => exact getResult_keeps_hidden w r h
    exact ih hcs (step w c) hstep

end App

/-! ## The claims -/

section Claims

open Sample

/-- C1, as stated, fails on `app.js`: an answer response that carries only `message` is
followed by `getResult()` and its message is shown nowhere; here the result request
fails, so the page stays exactly as it was. -/
theorem app_message_not_shown :
    App.submitAnswer (App.init appPage) (.str "yes") (.json messageData) .networkError =
      { sessionId := JVal.null
        questionCount := 0
        view := appPage
        trace :=
          [.fetch (Request.post "http://127.0.0.1:8000/api/answer_question/"
              (.obj [("session_id", JVal.null), ("answer", (.str "yes"))])),
           .getResult,
           .fetch (Request.get "http://127.0.0.1:8000/api/get_result/" [("session_id", JVal.null)]),
           .consoleError "Error getting result:"] } := by
  rfl

/-- C1 (amended): the click handler of `script.js` resolves an answer response in the
priority order `next_question`, `guessed_character`, `message`: a truthy
`next_question` is shown whatever the other fields hold, otherwise a truthy
`guessed_character` is shown whatever `message` holds, otherwise a truthy `message`
is shown.  `submitAnswer` of `app.js` tests `next_question` only: when it is truthy
the question is shown; every other parsed body except `null` leads to `getResult()`,
whatever `guessed_character` and `message` hold; at a body that parses to `null` the
test itself throws, the error is caught and logged, and `getResult()` is not
called. -/
theorem answer_dispatch_priority (ws : Script.World) (wa : App.World) (a data : JVal)
    (r2 : Fetch) :
    ((data.field "next_question").truthy = true →
        (Script.answerClick ws a (.json data)).trace =
            ws.trace ++
              [.fetch (.post "/api/answer/"
                (.obj [("session_id", ws.session_id), ("answer", a)])),
               .showQuestion (data.field "next_question")] ∧
          (Script.answerClick ws a (.json data)).view.questionText =
            (data.field "next_question").field "text") ∧
      ((data.field "next_question").truthy = false →
        (data.field "guessed_character").truthy = true →
        (Script.answerClick ws a (.json data)).trace =
            ws.trace ++
              [.fetch (.post "/api/answer/"
                (.obj [("session_id", ws.session_id), ("answer", a)])),
               .showResult (data.field "guessed_character")] ∧
          (Script.answerClick ws a (.json data)).view.resultName =
            (data.field "guessed_character").field "name") ∧
      ((data.field "next_question").truthy = false →
        (data.field "guessed_character").truthy = false →
        (data.field "message").truthy = true →
        (Script.answerClick ws a (.json data)).trace =
            ws.trace ++
              [.fetch (.post "/api/answer/"
                (.obj [("session_id", ws.session_id), ("answer", a)])),
               .showMessage (data.field "message")] ∧
          (Script.answerClick ws a (.json data)).view.questionText = data.field "message") ∧
      ((data.field "next_question").truthy = true →
        (App.submitAnswer wa a (.json data) r2).trace =
            wa.trace ++
              [.fetch (.post "http://127.0.0.1:8000/api/answer_question/"
                (.obj [("session_id", wa.sessionId), ("answer", a)])),
               .showQuestion (data.field "next_question")] ∧
          (App.submitAnswer wa a (.json data) r2).view.question =
            (data.field "next_question").field "text") ∧
      (data.nullish = false → (data.field "next_question").truthy = false →
        App.submitAnswer wa a (.json data) r2 =
          App.getResult
            (wa.emit (.fetch (.post "http://127.0.0.1:8000/api/answer_question/"
              (.obj [("session_id", wa.sessionId), ("answer", a)])))) r2) ∧
      (data.nullish = true →
        App.submitAnswer wa a (.json data) r2 =
          { sessionId := wa.sessionId
            questionCount := wa.questionCount
            view := wa.view
            trace := wa.trace ++
              [.fetch (.post "http://127.0.0.1:8000/api/answer_question/"
                (.obj [("session_id", wa.sessionId), ("answer", a)])),
               .consoleError "Error submitting answer:"] }) := by
  refine ⟨fun h => ?_, fun h1 h2 => ?_, fun h1 h2 h3 => ?_, fun h => ?_, fun hd h => ?_,
    fun hd => ?_⟩
  · rw [Script.answerClick_question ws a data h]
    exact ⟨rfl, rfl⟩
  · rw [Script.answerClick_result ws a data h1 h2]
    exact ⟨rfl, rfl⟩
  · rw [Script.answerClick_message ws a data h1 h2 h3]
    exact ⟨rfl, rfl⟩
  · rw [App.submitAnswer_question wa a data r2 h]
    exact ⟨rfl, rfl⟩
  · exact App.submitAnswer_else wa a data r2 hd h
  · exact App.submitAnswer_null wa a data r2 hd

/-- C1 (amended), at a response that carries all three fields, where the question wins
in `script.js`, and at the body `null` in `app.js`, which is logged. -/
theorem answer_dispatch_priority_witness :
    (Script.answerClick (Script.init scriptPage) (.str "yes")
          (.json (.obj [("message", .str "No more questions"), ("guessed_character", penguin),
            ("next_question", question "Does it fly?")]))).view.questionText =
        .str "Does it fly?" ∧
      (App.submitAnswer (App.init appPage) (.str "yes") (.json JVal.null) .networkError).trace =
        [.fetch (.post "http://127.0.0.1:8000/api/answer_question/"
          (.obj [("session_id", JVal.null), ("answer", .str "yes")])),
         .consoleError "Error submitting answer:"] :=
  ⟨((answer_dispatch_priority (Script.init scriptPage) (App.init appPage) (.str "yes")
      (.obj [("message", .str "No more questions"), ("guessed_character", penguin),
        ("next_question", question "Does it fly?")]) .networkError).1 rfl).2,
    ((answer_dispatch_priority (Script.init scriptPage) (App.init appPage) (.str "yes")
      JVal.null .networkError).2.2.2.2.2 rfl) ▸ rfl⟩

/-- C2, as stated, fails on `script.js`: in the sample game, started and showing its
first question, the answer response whose `message` is the empty string is acted on
by no branch; the handler sends its request and changes nothing. -/
theorem script_empty_message_no_outcome :
    Script.answerClick (Script.startGame (Script.init scriptPage) (.json startData))
        (.str "yes") (.json (.obj [("message", .str "")])) =
      { session_id := .str "abc123"
        view :=
          { startBtnHidden := true
            questionContainerHidden := false
            questionText := .str "Is it alive?"
            answerBtnsDisabled := false
            resultContainerHidden := true
            resultName := .str ""
            resultDesc := .str "" }
        trace :=
          [.fetch Script.startRequest,
           .showQuestion (question "Is it alive?"),
           .fetch (.post "/api/answer/"
             (.obj [("session_id", .str "abc123"), ("answer", .str "yes")]))] } ∧
      (Script.answerClick (Script.startGame (Script.init scriptPage) (.json startData))
        (.str "yes") (.json (.obj [("message", .str "")]))).view =
        (Script.startGame (Script.init scriptPage) (.json startData)).view ∧
      outcomes
        (Script.answerClick (Script.startGame (Script.init scriptPage) (.json startData))
          (.str "yes") (.json (.obj [("message", .str "")]))).trace =
        outcomes (Script.startGame (Script.init scriptPage) (.json startData)).trace :=
  ⟨rfl, rfl, rfl⟩

/-- C2 (amended): whatever the server returns, the answer handler acts on at most one of
the outcomes.  In `script.js` it acts on exactly one when at least one of
`next_question`, `guessed_character`, `message` is truthy, and on none, leaving the
variable and the page as they were, when none is.  In `app.js` it acts on exactly
one whenever the body parses to anything but `null`. -/
theorem answer_at_most_one_outcome (ws : Script.World) (wa : App.World) (a : JVal)
    (r r2 : Fetch) :
    outcomes (Script.answerClick ws a r).trace ≤ outcomes ws.trace + 1 ∧
      outcomes (App.submitAnswer wa a r r2).trace ≤ outcomes wa.trace + 1 ∧
      (∀ data, r = .json data →
        ((data.field "next_question").truthy = true ∨
          (data.field "guessed_character").truthy = true ∨
          (data.field "message").truthy = true) →
        outcomes (Script.answerClick ws a r).trace = outcomes ws.trace + 1) ∧
      (∀ data, r = .json data →
        (data.field "next_question").truthy = false →
        (data.field "guessed_character").truthy = false →
        (data.field "message").truthy = false →
        outcomes (Script.answerClick ws a r).trace = outcomes ws.trace ∧
          (Script.answerClick ws a r).session_id = ws.session_id ∧
          (Script.answerClick ws a r).view = ws.view) ∧
      (∀ data, r = .json data → data.nullish = false →
        outcomes (App.submitAnswer wa a r r2).trace = outcomes wa.trace + 1) := by
  refine ⟨?_, ?_, ?_, ?_, ?_⟩
  · obtain ⟨v, es, h, hes⟩ := Script.answerClick_shape ws a r
    rw [h]
    simp only [outcomes_append]
    have : outcomes (Event.fetch (Request.post "/api/answer/"
        (.obj [("session_id", ws.session_id), ("answer", a)])) :: es) = outcomes es := by
      simp [outcomes, Event.isOutcome]
    omega
  · obtain ⟨n, v, es, h, hes, -⟩ := App.submitAnswer_shape wa a r r2
    rw [h]
    simp only [outcomes_append]
    have : outcomes (Event.fetch (Request.post "http://127.0.0.1:8000/api/answer_question/"
        (.obj [("session_id", wa.sessionId), ("answer", a)])) :: es) = outcomes es := by
      simp [outcomes, Event.isOutcome]
    omega
  · rintro data rfl h
    cases h1 : (data.field "next_question").truthy
    · cases h2 : (data.field "guessed_character").truthy
      · have h3 : (data.field "message").truthy = true := by simpa [h1, h2] using h
        rw [Script.answerClick_message ws a data h1 h2 h3]
        simp [outcomes, Event.isOutcome, List.filter_append]
      · rw [Script.answerClick_result ws a data h1 h2]
        simp [outcomes, Event.isOutcome, List.filter_append]
    · rw [Script.answerClick_question ws a data h1]
      simp [outcomes, Event.isOutcome, List.filter_append]
  · rintro data rfl h1 h2 h3
    rw [Script.answerClick_none ws a data h1 h2 h3]
    refine ⟨?_, rfl, rfl⟩
    cases data.nullish <;> simp [outcomes, Event.isOutcome, List.filter_append]
  · rintro data rfl hd
    cases h : (data.field "next_question").truthy
    · obtain ⟨v, es, hg, hes⟩ :=
        App.getResult_shape (wa.emit (.fetch (Request.post "http://127.0.0.1:8000/api/answer_question/"
            (.obj [("session_id", wa.sessionId), ("answer", a)])))) r2
      rw [App.submitAnswer_else wa a data r2 hd h, hg]
      rcases hes with rfl | rfl <;>
        simp [outcomes, Event.isOutcome, List.filter_append, App.World.emit]
    · rw [App.submitAnswer_question wa a data r2 h]
      simp [outcomes, Event.isOutcome, List.filter_append]

/-- C2 (amended), at a response that carries a guess and a message: one outcome. -/
theorem answer_at_most_one_outcome_witness :
    outcomes (Script.answerClick (Script.init scriptPage) (.str "no")
      (.json (.obj [("guessed_character", penguin),
        ("message", .str "No more questions")]))).trace = 0 + 1 :=
  (answer_at_most_one_outcome (Script.init scriptPage) (App.init appPage) (.str "no")
    (.json (.obj [("guessed_character", penguin), ("message", .str "No more questions")]))
    .networkError).2.2.1 _ rfl (Or.inr (Or.inl rfl))

/-- C3, as stated, fails: what `startGame` leaves depends on the prior state.  Started on
the fresh page of `app.js` it leaves no guess in the result element; started again
after a finished game, with the same response, it leaves the old guess there. -/
theorem app_start_keeps_old_result :
    (App.startGame (App.init appPage) (.json startData)).view.result = none ∧
      (App.startGame
          (App.run (App.init appPage)
            [.startGame (.json startData),
             .submitAnswer (.str "no") (.json (.obj [])) (.json (guessData penguin))])
          (.json startData)).view.result =
        some { name := .str "Penguin", description := .str "A flightless bird",
               image := none } :=
  ⟨rfl, rfl⟩

/-- C3 (amended): for every prior state and every start response `data` carrying a
question object, `startGame` stores `data.session_id`, and in `app.js` sets the
question count to 1; it hands `data.question` to `showQuestion`, so the question
text becomes `data.question.text`; in `app.js` the start button gets display `none`,
the answers display `block` and the progress label reads `Question 1`; in `script.js`
the start button is hidden and the question container revealed.  All of these are
fixed by the response alone.  Every other property of the page (the result element
of `app.js`; the result container, result texts and disabled flag of `script.js`)
keeps the value it had in the prior state, and `script.js` keeps no question
count. -/
theorem startGame_stores_session (ws : Script.World) (wa : App.World) (data : JVal)
    (hq : (data.field "question").nullish = false) :
    App.startGame wa (.json data) =
        { sessionId := data.field "session_id"
          questionCount := 1
          view :=
            { question := (data.field "question").field "text"
              progress := "Question 1"
              startBtnDisplay := "none"
              answersDisplay := "block"
              result := wa.view.result }
          trace := wa.trace ++
            [.fetch App.startRequest, .showQuestion (data.field "question")] } ∧
      Script.startGame ws (.json data) =
        { session_id := data.field "session_id"
          view :=
            { startBtnHidden := true
              questionContainerHidden := false
              questionText := (data.field "question").field "text"
              answerBtnsDisabled := ws.view.answerBtnsDisabled
              resultContainerHidden := ws.view.resultContainerHidden
              resultName := ws.view.resultName
              resultDesc := ws.view.resultDesc }
          trace := ws.trace ++
            [.fetch Script.startRequest, .showQuestion (data.field "question")] } :=
  ⟨App.startGame_ok wa data hq, Script.startGame_shows_question ws data hq⟩

/-- C3 (amended), at the start response of the sample game. -/
theorem startGame_stores_session_witness :
    (startData.field "question").nullish = false ∧
      (App.startGame (App.init appPage) (.json startData)).sessionId = .str "abc123" ∧
      (App.startGame (App.init appPage) (.json startData)).questionCount = 1 ∧
      (Script.startGame (Script.init scriptPage) (.json startData)).view.questionText =
        .str "Is it alive?" :=
  ⟨rfl,
    ((startGame_stores_session (Script.init scriptPage) (App.init appPage) startData rfl).1 ▸ rfl),
    ((startGame_stores_session (Script.init scriptPage) (App.init appPage) startData rfl).1 ▸ rfl),
    ((startGame_stores_session (Script.init scriptPage) (App.init appPage) startData rfl).2 ▸ rfl)⟩

/-- C4: after a start response `data` (any parsed body but `null`) and any sequence of
later calls other than `startGame`, with arbitrary responses, the next submission of
an answer `a` first sends the answer request whose body has `session_id` equal to
`data.session_id` and `answer` equal to `a`.  Only `startGame` writes the stored
identifier: the click handler of `script.js`, and `submitAnswer` and `getResult` of
`app.js`, leave it as it was. -/
theorem answer_request_carries_session (ws : Script.World) (wa : App.World) (data a : JVal)
    (cs : List Script.Call) (ca : List App.Call) (r r2 : Fetch)
    (hd : data.nullish = false)
    (hcs : ∀ c ∈ cs, c.isStart = false) (hca : ∀ c ∈ ca, c.isStart = false) :
    (∃ es,
        (Script.answerClick (Script.run (Script.startGame ws (.json data)) cs) a r).trace =
          (Script.run (Script.startGame ws (.json data)) cs).trace ++
            .fetch (Request.post "/api/answer/"
                (.obj [("session_id", (data.field "session_id")), ("answer", a)])) :: es) ∧
      (∃ es,
        (App.submitAnswer (App.run (App.startGame wa (.json data)) ca) a r r2).trace =
          (App.run (App.startGame wa (.json data)) ca).trace ++
            .fetch (Request.post "http://127.0.0.1:8000/api/answer_question/"
                (.obj [("session_id", (data.field "session_id")), ("answer", a)])) :: es) ∧
      (∀ (w : Script.World) (b : JVal) (q : Fetch),
        (Script.answerClick w b q).session_id = w.session_id) ∧
      (∀ (w : App.World) (b : JVal) (q q2 : Fetch),
        (App.submitAnswer w b q q2).sessionId = w.sessionId) ∧
      (∀ (w : App.World) (q : Fetch), (App.getResult w q).sessionId = w.sessionId) := by
  refine ⟨?_, ?_, Script.answerClick_session_id, App.submitAnswer_sessionId,
    App.getResult_sessionId⟩
  · obtain ⟨v, es, h, -⟩ :=
      Script.answerClick_shape (Script.run (Script.startGame ws (.json data)) cs) a r
    refine ⟨es, ?_⟩
    rw [h, Script.run_session_id cs hcs, Script.startGame_session_id ws data hd]
  · obtain ⟨n, v, es, h, -⟩ :=
      App.submitAnswer_shape (App.run (App.startGame wa (.json data)) ca) a r r2
    refine ⟨es, ?_⟩
    rw [h, App.run_sessionId ca hca, App.startGame_sessionId wa data hd]

/-- C4, in the sample game: after the start and one answered question the next answer
is sent with the identifier of the start response. -/
theorem answer_request_carries_session_witness :
    ∃ es,
      (App.submitAnswer
          (App.run (App.startGame (App.init appPage) (.json startData))
            [.submitAnswer (.str "yes") (.json nextData) .networkError,
             .getResult .badBody])
          (.str "no") (.json (guessData penguin)) (.json (guessData penguin))).trace =
        (App.run (App.startGame (App.init appPage) (.json startData))
            [.submitAnswer (.str "yes") (.json nextData) .networkError,
             .getResult .badBody]).trace ++
          .fetch (Request.post "http://127.0.0.1:8000/api/answer_question/"
              (.obj [("session_id", (startData.field "session_id")), ("answer", (.str "no"))]))
              :: es :=
  (answer_request_carries_session (Script.init scriptPage) (App.init appPage) startData
    (.str "no") [.answer (.str "yes") (.json nextData)]
    [.submitAnswer (.str "yes") (.json nextData) .networkError, .getResult .badBody]
    (.json (guessData penguin)) (.json (guessData penguin)) rfl
    (by intro c hc; simp at hc; subst hc; rfl)
    (by intro c hc; simp at hc; rcases hc with rfl | rfl <;> rfl)).2.1

/-- C5, as stated, fails: neither client guards `submitAnswer`.  Invoked on the freshly
loaded page of `app.js`, before any start, it sends the answer request with
`session_id` equal to `null`. -/
theorem app_submit_before_start_sends_null :
    (App.submitAnswer (App.init appPage) (.str "yes") .networkError .networkError).trace =
      [.fetch (.post "http://127.0.0.1:8000/api/answer_question/"
          (.obj [("session_id", JVal.null), ("answer", .str "yes")])),
       .consoleError "Error submitting answer:"] :=
  rfl

/-- C5 (amended): invoked before any start, on any page and for every answer `a`, the
answer handler of either client makes no local check: the first thing it does is to
send the answer request, whose body has `session_id` equal to `null` and `answer`
equal to `a`. -/
theorem submit_before_start_sends_null (vs : Script.View) (va : App.View) (a : JVal)
    (r r2 : Fetch) :
    (∃ es, (Script.answerClick (Script.init vs) a r).trace =
        .fetch (.post "/api/answer/" (.obj [("session_id", JVal.null), ("answer", a)])) :: es) ∧
      (∃ es, (App.submitAnswer (App.init va) a r r2).trace =
        .fetch (.post "http://127.0.0.1:8000/api/answer_question/"
          (.obj [("session_id", JVal.null), ("answer", a)])) :: es) := by
  constructor
  · obtain ⟨v, es, h, -⟩ := Script.answerClick_shape (Script.init vs) a r
    exact ⟨es, by rw [h]; rfl⟩
  · obtain ⟨n, v, es, h, -⟩ := App.submitAnswer_shape (App.init va) a r r2
    exact ⟨es, by rw [h]; rfl⟩

/-- C6, as stated, fails: the handler has no guard and the client keeps no lifecycle
state.  In `script.js`, after the guess of the sample game has been shown, a further
click still sends an answer request, and a `next_question` response to it changes the
question text. -/
theorem script_click_after_guess_still_sends :
    (Script.run (Script.init scriptPage)
        [.startGame (.json startData),
         .answer (.str "no") (.json (guessData penguin))]).view.questionText =
        .str "Is it alive?" ∧
      Script.answerClick
          (Script.run (Script.init scriptPage)
            [.startGame (.json startData),
             .answer (.str "no") (.json (guessData penguin))])
          (.str "yes") (.json nextData) =
        { session_id := .str "abc123"
          view :=
            { startBtnHidden := true
              questionContainerHidden := true
              questionText := .str "Does it fly?"
              answerBtnsDisabled := false
              resultContainerHidden := false
              resultName := .str "Penguin"
              resultDesc := .str "A flightless bird" }
          trace :=
            [.fetch Script.startRequest,
             .showQuestion (question "Is it alive?"),
             .fetch (Request.post "/api/answer/"
                 (.obj [("session_id", (.str "abc123")), ("answer", (.str "no"))])),
             .showResult penguin,
             .fetch (Request.post "/api/answer/"
                 (.obj [("session_id", (.str "abc123")), ("answer", (.str "yes"))])),
             .showQuestion (question "Does it fly?")] } :=
  ⟨rfl, rfl⟩

/-- C6 (amended): take the state in which the client has just acted on a guess: in
`script.js` the state after an answer response in which `guessed_character` is truthy
and `next_question` is not, in `app.js` the state after `getResult` has processed a
response carrying `guessed_character`.  In that state and in every state reached from
it by calls other than `startGame`, the answer controls are out of view (`script.js`
keeps the question container hidden and the result container revealed, `app.js`
keeps the display of the answers at `none`) and the stored identifier is the one
stored before.  The handler itself has no guard: in every such state a submission of
any answer still sends the answer request, with the stored identifier.  `showResult`
leaves the disabled flag of the buttons as it was. -/
theorem guess_hides_answer_controls (ws : Script.World) (wa : App.World)
    (a data rdata a2 : JVal) (cs : List Script.Call) (ca : List App.Call) (r r2 : Fetch)
    (h1 : (data.field "next_question").truthy = false)
    (h2 : (data.field "guessed_character").truthy = true)
    (hc : (rdata.field "guessed_character").nullish = false)
    (hcs : ∀ c ∈ cs, c.isStart = false) (hca : ∀ c ∈ ca, c.isStart = false) :
    ((Script.run (Script.answerClick ws a (.json data)) cs).view.questionContainerHidden =
          true ∧
        (Script.run (Script.answerClick ws a (.json data)) cs).view.resultContainerHidden =
          false ∧
        (Script.run (Script.answerClick ws a (.json data)) cs).session_id = ws.session_id ∧
        (Script.answerClick ws a (.json data)).view.answerBtnsDisabled =
          ws.view.answerBtnsDisabled ∧
        ∃ es,
          (Script.answerClick (Script.run (Script.answerClick ws a (.json data)) cs) a2 r).trace =
            (Script.run (Script.answerClick ws a (.json data)) cs).trace ++
              .fetch (.post "/api/answer/"
                (.obj [("session_id", ws.session_id), ("answer", a2)])) :: es) ∧
      ((App.run (App.getResult wa (.json rdata)) ca).view.answersDisplay = "none" ∧
        (App.run (App.getResult wa (.json rdata)) ca).sessionId = wa.sessionId ∧
        ∃ es,
          (App.submitAnswer (App.run (App.getResult wa (.json rdata)) ca) a2 r r2).trace =
            (App.run (App.getResult wa (.json rdata)) ca).trace ++
              .fetch (.post "http://127.0.0.1:8000/api/answer_question/"
                (.obj [("session_id", wa.sessionId), ("answer", a2)])) :: es) := by
  constructor
  · have hq : (Script.answerClick ws a (.json data)).view.questionContainerHidden = true := by
      rw [Script.answerClick_result ws a data h1 h2]
    have hr : (Script.answerClick ws a (.json data)).view.resultContainerHidden = false := by
      rw [Script.answerClick_result ws a data h1 h2]
    have hs : (Script.run (Script.answerClick ws a (.json data)) cs).session_id =
        ws.session_id := by
      rw [Script.run_session_id cs hcs, Script.answerClick_session_id]
    obtain ⟨v, es, h, -⟩ :=
      Script.answerClick_shape (Script.run (Script.answerClick ws a (.json data)) cs) a2 r
    refine ⟨(Script.run_keeps_hidden cs hcs _ hq hr).1, (Script.run_keeps_hidden cs hcs _ hq hr).2,
      hs, ?_, es, ?_⟩
    · rw [Script.answerClick_result ws a data h1 h2]
    · rw [h, hs]
  · have hn : (App.getResult wa (.json rdata)).view.answersDisplay = "none" := by
      rw [App.getResult_ok wa rdata hc]
    have hs : (App.run (App.getResult wa (.json rdata)) ca).sessionId = wa.sessionId := by
      rw [App.run_sessionId ca hca, App.getResult_sessionId]
    obtain ⟨n, v, es, h, -⟩ :=
      App.submitAnswer_shape (App.run (App.getResult wa (.json rdata)) ca) a2 r r2
    refine ⟨App.run_keeps_hidden_answers ca hca _ hn, hs, es, ?_⟩
    rw [h, hs]

/-- C6 (amended), in the sample game of `script.js`: after the guess and one more click
the question container is still hidden. -/
theorem guess_hides_answer_controls_witness :
    (Script.run
      (Script.answerClick (Script.startGame (Script.init scriptPage) (.json startData))
        (.str "no") (.json (guessData penguin)))
      [.answer (.str "yes") (.json nextData)]).view.questionContainerHidden = true :=
  (guess_hides_answer_controls (Script.startGame (Script.init scriptPage) (.json startData))
    (App.init appPage) (.str "no") (guessData penguin) (guessData penguin) (.str "yes")
    [.answer (.str "yes") (.json nextData)] [] .networkError .networkError rfl rfl rfl
    (by intro c hc; simp at hc; subst hc; rfl)
    (by intro c hc; simp at hc)).1.1

/-- C7: in `app.js`, for every state whose question count `n` is below `2^53` (the range
in which `questionCount++` is exact, and every count a client really reaches) and
every answer response with a truthy `next_question`, `submitAnswer` leaves the count at `n + 1`, shows
`next_question.text` as the question and `Question` followed by `n + 1` as the
progress label, keeps the stored identifier and every other property of the page,
and neither calls `getResult` nor sends a second request. -/
theorem submitAnswer_next_question (w : App.World) (a data : JVal) (r2 : Fetch)
    (hn : w.questionCount < App.maxCount)
    (h : (data.field "next_question").truthy = true) :
    App.submitAnswer w a (.json data) r2 =
      { sessionId := w.sessionId
        questionCount := w.questionCount + 1
        view :=
          { question := (data.field "next_question").field "text"
            progress := "Question " ++ toString (w.questionCount + 1)
            startBtnDisplay := w.view.startBtnDisplay
            answersDisplay := w.view.answersDisplay
            result := w.view.result }
        trace := w.trace ++
          [.fetch (Request.post "http://127.0.0.1:8000/api/answer_question/"
              (.obj [("session_id", w.sessionId), ("answer", a)])),
           .showQuestion (data.field "next_question")] } := by
  rw [App.submitAnswer_question w a data r2 h]
  simp [App.increment, hn]

/-- C7, in the sample game: the second question. -/
theorem submitAnswer_next_question_witness :
    (App.submitAnswer (App.startGame (App.init appPage) (.json startData)) (.str "yes")
        (.json nextData) .networkError).questionCount = 2 ∧
      (App.submitAnswer (App.startGame (App.init appPage) (.json startData)) (.str "yes")
        (.json nextData) .networkError).view.progress = "Question 2" := by
  rw [submitAnswer_next_question (App.startGame (App.init appPage) (.json startData))
    (.str "yes") nextData .networkError (by decide) rfl]
  exact ⟨rfl, by decide⟩

/-- C8, as stated, fails on `app.js`: an answer response that carries only `message` makes
`submitAnswer` request the guess from the server and render it. -/
theorem app_message_fetches_guess :
    App.submitAnswer (App.startGame (App.init appPage) (.json startData)) (.str "yes")
        (.json messageData) (.json (guessData penguin)) =
      { sessionId := .str "abc123"
        questionCount := 1
        view :=
          { question := .str ""
            progress := ""
            startBtnDisplay := "none"
            answersDisplay := "none"
            result := some
              { name := .str "Penguin", description := .str "A flightless bird",
                image := none } }
        trace :=
          [.fetch App.startRequest,
           .showQuestion (question "Is it alive?"),
           .fetch (Request.post "http://127.0.0.1:8000/api/answer_question/"
               (.obj [("session_id", (.str "abc123")), ("answer", (.str "yes"))])),
           .getResult,
           .fetch (Request.get "http://127.0.0.1:8000/api/get_result/"
               [("session_id", (.str "abc123"))])] } :=
  rfl

/-- C8 (amended): in `script.js`, for every answer response in which `message` is truthy
and neither `next_question` nor `guessed_character` is, the handler shows the message
as the question text and disables the answer buttons; it changes nothing else on the
page, renders no guess and sends no further request.  In `app.js` such a response
makes `submitAnswer` call `getResult()`, which requests the guess from the server. -/
theorem message_ends_the_game (ws : Script.World) (wa : App.World) (a data : JVal)
    (r2 : Fetch)
    (h1 : (data.field "next_question").truthy = false)
    (h2 : (data.field "guessed_character").truthy = false)
    (h3 : (data.field "message").truthy = true) :
    Script.answerClick ws a (.json data) =
        { session_id := ws.session_id
          view :=
            { startBtnHidden := ws.view.startBtnHidden
              questionContainerHidden := ws.view.questionContainerHidden
              questionText := data.field "message"
              answerBtnsDisabled := true
              resultContainerHidden := ws.view.resultContainerHidden
              resultName := ws.view.resultName
              resultDesc := ws.view.resultDesc }
          trace := ws.trace ++
            [.fetch (Request.post "/api/answer/"
                (.obj [("session_id", ws.session_id), ("answer", a)])),
             .showMessage (data.field "message")] } ∧
      ∃ v es, App.submitAnswer wa a (.json data) r2 =
        { sessionId := wa.sessionId
          questionCount := wa.questionCount
          view := v
          trace := wa.trace ++
            .fetch (Request.post "http://127.0.0.1:8000/api/answer_question/"
                (.obj [("session_id", wa.sessionId), ("answer", a)])) :: .getResult ::
              .fetch (Request.get "http://127.0.0.1:8000/api/get_result/"
                  [("session_id", wa.sessionId)]) :: es } := by
  constructor
  · rw [Script.answerClick_message ws a data h1 h2 h3]
  · have hd := JVal.nullish_of_field_truthy h3
    obtain ⟨v, es, hg, -⟩ :=
      App.getResult_shape (wa.emit (.fetch (Request.post "http://127.0.0.1:8000/api/answer_question/"
          (.obj [("session_id", wa.sessionId), ("answer", a)])))) r2
    refine ⟨v, es, ?_⟩
    rw [App.submitAnswer_else wa a data r2 hd h1, hg]
    simp [App.World.emit]

/-- C8 (amended), at the message response of the sample data. -/
theorem message_ends_the_game_witness :
    (Script.answerClick (Script.startGame (Script.init scriptPage) (.json startData))
        (.str "yes") (.json messageData)).view.questionText = .str "No more questions" ∧
      (Script.answerClick (Script.startGame (Script.init scriptPage) (.json startData))
        (.str "yes") (.json messageData)).view.answerBtnsDisabled = true := by
  rw [(message_ends_the_game (Script.startGame (Script.init scriptPage) (.json startData))
    (App.init appPage) (.str "yes") messageData .networkError rfl rfl rfl).1]
  exact ⟨rfl, rfl⟩

/-- C9, as stated, fails: a start response that lacks `question` is caught and logged by
`app.js`, but only after the identifier and the count have been written, so the
client is not left in its prior state. -/
theorem app_start_without_question_writes :
    App.startGame (App.init appPage) (.json (.obj [("session_id", .str "abc123")])) =
      { sessionId := .str "abc123"
        questionCount := 1
        view := appPage
        trace :=
          [.fetch App.startRequest,
           .showQuestion JVal.undefined,
           .consoleError "Error starting game:"] } :=
  rfl

/-- C9 (amended): in `app.js`, for each of `startGame`, `submitAnswer` and `getResult`, a
request that fails or a body that does not parse is caught at the call site and
logged with `console.error`, and the stored identifier, the question count and the
page are the same as before the call.  A parsed body that makes the callback throw (a
start response without a question object, an answer response that is `null`, a
result response without a character) is caught at the call site and logged with
`console.error` as well.  In `script.js` a request that fails or a body that does
not parse leaves the stored identifier and the page the same as before the call. -/
theorem failed_call_keeps_state (ws : Script.World) (wa : App.World) (a : JVal)
    (r2 : Fetch) :
    (App.startGame wa .networkError =
          { wa with trace := wa.trace ++
              [.fetch App.startRequest, .consoleError "Error starting game:"] } ∧
        App.startGame wa .badBody =
          { wa with trace := wa.trace ++
              [.fetch App.startRequest, .consoleError "Error starting game:"] }) ∧
      (App.submitAnswer wa a .networkError r2 =
          { wa with trace := wa.trace ++
              [.fetch (.post "http://127.0.0.1:8000/api/answer_question/"
                (.obj [("session_id", wa.sessionId), ("answer", a)])),
               .consoleError "Error submitting answer:"] } ∧
        App.submitAnswer wa a .badBody r2 =
          { wa with trace := wa.trace ++
              [.fetch (.post "http://127.0.0.1:8000/api/answer_question/"
                (.obj [("session_id", wa.sessionId), ("answer", a)])),
               .consoleError "Error submitting answer:"] }) ∧
      (App.getResult wa .networkError =
          { wa with trace := wa.trace ++
              [.getResult,
               .fetch (.get "http://127.0.0.1:8000/api/get_result/"
                 [("session_id", wa.sessionId)]),
               .consoleError "Error getting result:"] } ∧
        App.getResult wa .badBody =
          { wa with trace := wa.trace ++
              [.getResult,
               .fetch (.get "http://127.0.0.1:8000/api/get_result/"
                 [("session_id", wa.sessionId)]),
               .consoleError "Error getting result:"] }) ∧
      (∀ data : JVal, (data.field "question").nullish = true →
        (App.startGame wa (.json data)).trace =
          wa.trace ++
            (.fetch App.startRequest ::
              (if data.nullish then [] else [.showQuestion (data.field "question")])) ++
            [.consoleError "Error starting game:"]) ∧
      (∀ data : JVal, data.nullish = true →
        (App.submitAnswer wa a (.json data) r2).trace =
          wa.trace ++
            [.fetch (.post "http://127.0.0.1:8000/api/answer_question/"
              (.obj [("session_id", wa.sessionId), ("answer", a)])),
             .consoleError "Error submitting answer:"]) ∧
      (∀ data : JVal, (data.field "guessed_character").nullish = true →
        (App.getResult wa (.json data)).trace =
          wa.trace ++
            [.getResult,
             .fetch (.get "http://127.0.0.1:8000/api/get_result/"
               [("session_id", wa.sessionId)]),
             .consoleError "Error getting result:"]) ∧
      ((Script.startGame ws .networkError).session_id = ws.session_id ∧
        (Script.startGame ws .networkError).view = ws.view ∧
        (Script.startGame ws .badBody).session_id = ws.session_id ∧
        (Script.startGame ws .badBody).view = ws.view) ∧
      ((Script.answerClick ws a .networkError).session_id = ws.session_id ∧
        (Script.answerClick ws a .networkError).view = ws.view ∧
        (Script.answerClick ws a .badBody).session_id = ws.session_id ∧
        (Script.answerClick ws a .badBody).view = ws.view) := by
  refine ⟨App.startGame_failed wa, App.submitAnswer_failed wa a r2, App.getResult_failed wa,
    fun data hq => App.startGame_missing wa data hq, fun data hd => ?_, fun data hc => ?_,
    ⟨rfl, rfl, rfl, rfl⟩, ⟨rfl, rfl, rfl, rfl⟩⟩
  · rw [App.submitAnswer_null wa a data r2 hd]
  · rw [App.getResult_missing wa data hc]

/-- C9 (amended), at a result response that carries no character: the failure is
logged. -/
theorem failed_call_keeps_state_witness :
    (App.getResult (App.init appPage) (.json (.obj []))).trace =
      [.getResult,
       .fetch (.get "http://127.0.0.1:8000/api/get_result/" [("session_id", JVal.null)]),
       .consoleError "Error getting result:"] :=
  (failed_call_keeps_state (Script.init scriptPage) (App.init appPage) (.str "yes")
    .networkError).2.2.2.2.2.1 (.obj []) rfl

/-- C10, as stated, fails on `script.js`, which never shows an image: the sample game
ended by the guess with an image reference leaves exactly the page that the game
ended by the guess without one leaves. -/
theorem script_image_never_shown :
    (Script.run (Script.init scriptPage)
        [.startGame (.json startData),
         .answer (.str "yes") (.json nextData),
         .answer (.str "no") (.json (guessData penguinWithImage))]).view =
      (Script.run (Script.init scriptPage)
        [.startGame (.json startData),
         .answer (.str "yes") (.json nextData),
         .answer (.str "no") (.json (guessData penguin))]).view ∧
      (penguinWithImage.field "image_url").truthy = true ∧
      (penguin.field "image_url").truthy = false :=
  ⟨rfl, rfl, rfl⟩

/-- C10 (amended): in `script.js`, every run that ends with an answer response whose
`guessed_character` is a character `c` (and whose `next_question` is not truthy)
leaves the question container hidden, the result container revealed, `c.name` as the
text of the result name and `c.description` as the text of the result description
(`undefined` when `c` has none), and nothing else on the page changed by that
response: the page has no image.  In `app.js`, every run that ends with an answer
response without a truthy `next_question` (any parsed body but `null`; its
`guessed_character` is never read), followed by a result response whose
`guessed_character` is a character `c`, leaves the question and the progress label
empty, the answers hidden, and as the markup of the result element the template
filled with `c.name`, then `c.description`, or the empty string when that is not
truthy, and with its image fragment, carrying `c.image_url`, exactly when
`c.image_url` is truthy.  The values are interpolated into the markup as they are. -/
theorem guess_is_rendered (vs : Script.View) (va : App.View) (cs : List Script.Call)
    (ca : List App.Call) (a data adata rdata : JVal)
    (h1 : (data.field "next_question").truthy = false)
    (h2 : (data.field "guessed_character").truthy = true)
    (had : adata.nullish = false)
    (ha1 : (adata.field "next_question").truthy = false)
    (hc : (rdata.field "guessed_character").nullish = false) :
    (Script.run (Script.init vs) (cs ++ [.answer a (.json data)])).view =
        { startBtnHidden := (Script.run (Script.init vs) cs).view.startBtnHidden
          questionContainerHidden := true
          questionText := (Script.run (Script.init vs) cs).view.questionText
          answerBtnsDisabled := (Script.run (Script.init vs) cs).view.answerBtnsDisabled
          resultContainerHidden := false
          resultName := (data.field "guessed_character").field "name"
          resultDesc := (data.field "guessed_character").field "description" } ∧
      (App.run (App.init va) (ca ++ [.submitAnswer a (.json adata) (.json rdata)])).view =
        { question := .str ""
          progress := ""
          startBtnDisplay := (App.run (App.init va) ca).view.startBtnDisplay
          answersDisplay := "none"
          result := some
            { name := (rdata.field "guessed_character").field "name"
              description :=
                ((rdata.field "guessed_character").field "description").or (.str "")
              image :=
                if ((rdata.field "guessed_character").field "image_url").truthy then
                  some ((rdata.field "guessed_character").field "image_url")
                else none } } := by
  constructor
  · rw [Script.run_calls_append]
    show (Script.answerClick (Script.run (Script.init vs) cs) a (.json data)).view = _
    rw [Script.answerClick_result _ a data h1 h2]
  · rw [App.run_append]
    show (App.submitAnswer (App.run (App.init va) ca) a (.json adata) (.json rdata)).view = _
    rw [App.submitAnswer_else _ a adata _ had ha1, App.getResult_ok _ rdata hc]
    rfl

/-- C10 (amended), the end-to-end scenario: the start gives the identifier abc123 and the
question whether it is alive, the answer yes brings the question whether it flies,
the answer no brings the guess Penguin, a flightless bird (in `app.js` through an
answer response that carries only a message, then the result response); both clients
leave the name and the description, and the markup of `app.js` has no image
fragment. -/
theorem guess_is_rendered_witness :
    ((Script.run (Script.init scriptPage)
          ([.startGame (.json startData), .answer (.str "yes") (.json nextData)] ++
            [.answer (.str "no") (.json (guessData penguin))])).view.resultName =
          .str "Penguin" ∧
        (Script.run (Script.init scriptPage)
          ([.startGame (.json startData), .answer (.str "yes") (.json nextData)] ++
            [.answer (.str "no") (.json (guessData penguin))])).view.resultDesc =
          .str "A flightless bird") ∧
      (App.run (App.init appPage)
          ([.startGame (.json startData), .submitAnswer (.str "yes") (.json nextData) .badBody] ++
            [.submitAnswer (.str "no") (.json messageData)
              (.json (guessData penguin))])).view.result =
        some { name := .str "Penguin", description := .str "A flightless bird",
               image := none } := by
  have h := guess_is_rendered scriptPage appPage
    [.startGame (.json startData), .answer (.str "yes") (.json nextData)]
    [.startGame (.json startData), .submitAnswer (.str "yes") (.json nextData) .badBody]
    (.str "no") (guessData penguin) messageData (guessData penguin) rfl rfl rfl rfl rfl
  rw [h.1, h.2]
  exact ⟨⟨rfl, rfl⟩, rfl⟩

end Claims

end Akinator
